import Mathlib

/-!
Verification development for the ApexBets prediction pipeline
(`scripts/ml_models`): a shallow embedding in Lean 4 of the
feature-engineering, predictor-model, model-manager and
prediction-store operations, with theorems settling the specified
behavioural properties.

Conventions of the embedding:
* Python / SQL numeric values are modelled as `ℚ` (all the constants
  involved — 0.5, 3, 5, 110.0, 220.0, 0.8, 0.1 — are exact rationals,
  and the properties verified are control-flow and order facts that do
  not depend on float rounding).
* The relational store is an explicit list of rows; the SQL queries of
  the source are translated clause by clause (filter for `WHERE`,
  insertion sort for `ORDER BY game_date DESC`, `take` for `LIMIT`).
* External-library calls (`numpy.std`, the fitted sklearn estimators,
  `pd.read_sql`) are parameters of the embedding; where the Python code
  can observe an exception from them the parameter returns `Except`.
* Python dictionaries whose key set matters (the per-model prediction
  dicts, whose missing keys drive `KeyError` control flow in
  `MLModelManager.predict_game`) are association lists consulted with
  `List.lookup`.
-/

/-- One row of the `games` table as the queries of
`feature_engineering.py` and `prediction_generator.py` read it. -/
structure Game where
  id : Nat
  home_team_id : String
  away_team_id : String
  home_score : Option ℚ
  away_score : Option ℚ
  game_date : Nat
  status : String
  deriving DecidableEq, Repr

/-- WHERE clause of the `get_team_stats` query: the game involves the
team, is completed, and both scores are non-null. -/
def teamQualifies (team : String) (g : Game) : Bool :=
  (g.home_team_id == team || g.away_team_id == team) &&
    g.status == "completed" && g.home_score.isSome && g.away_score.isSome

/-- The computed `venue` column: `CASE WHEN home_team_id = team THEN
home ELSE away END`. -/
def venueIsHome (team : String) (g : Game) : Bool :=
  g.home_team_id == team

/-- Ordering used by `ORDER BY g.game_date DESC`. -/
def dateDesc (a b : Game) : Prop :=
  b.game_date ≤ a.game_date

instance : DecidableRel dateDesc :=
  fun _ _ => Nat.decLe _ _

instance : IsTotal Game dateDesc :=
  ⟨fun a b => Nat.le_total b.game_date a.game_date⟩

instance : IsTrans Game dateDesc :=
  ⟨fun _ _ _ h1 h2 => Nat.le_trans h2 h1⟩

/-- `ORDER BY game_date DESC` over a row list. -/
def sortByDateDesc (l : List Game) : List Game :=
  l.insertionSort dateDesc

/-- Result set of the `get_team_stats` query: filter, order by date
descending, `LIMIT games_back`. -/
def teamQuery (store : List Game) (team : String) (games_back : Nat) : List Game :=
  (sortByDateDesc (store.filter (teamQualifies team))).take games_back

/-- Home score of a row (non-null for every row the queries return). -/
def homeScore (g : Game) : ℚ :=
  g.home_score.getD 0

/-- Away score of a row (non-null for every row the queries return). -/
def awayScore (g : Game) : ℚ :=
  g.away_score.getD 0

/-- Score of the given team in a game, resolved through the venue. -/
def teamScore (team : String) (g : Game) : ℚ :=
  if venueIsHome team g then homeScore g else awayScore g

/-- Score of the given team's opponent in a game. -/
def oppScore (team : String) (g : Game) : ℚ :=
  if venueIsHome team g then awayScore g else homeScore g

/-- `numpy.mean` on an exact list of rationals. -/
def mean (xs : List ℚ) : ℚ :=
  xs.sum / (xs.length : ℚ)

/-- The stats dictionary `FeatureEngineer.get_team_stats` returns; the
source always populates all eight keys, so it is a record here. -/
structure TeamStats where
  avg_points_scored : ℚ
  avg_points_allowed : ℚ
  avg_point_differential : ℚ
  win_percentage : ℚ
  home_win_pct : ℚ
  away_win_pct : ℚ
  recent_form : ℚ
  scoring_consistency : ℚ
  deriving DecidableEq, Repr

namespace FeatureEngineer

/-- `FeatureEngineer._get_default_stats` (leading underscore dropped):
the fixed default profile. -/
def get_default_stats : TeamStats :=
  { avg_points_scored := 110
    avg_points_allowed := 110
    avg_point_differential := 0
    win_percentage := 1/2
    home_win_pct := 1/2
    away_win_pct := 1/2
    recent_form := 1/2
    scoring_consistency := 1/2 }

/-- `FeatureEngineer._calculate_win_pct` (leading underscore dropped):
win fraction of a venue-homogeneous game list. -/
def calculate_win_pct (games : List Game) (venueHome : Bool) : ℚ :=
  if games.isEmpty then 1/2
  else
    let wins := (games.filter (fun g =>
      if venueHome then decide (homeScore g > awayScore g)
      else decide (awayScore g > homeScore g))).length
    (wins : ℚ) / (games.length : ℚ)

/-- Body of `FeatureEngineer.get_team_stats` after the query result
`df` is in hand.  `std` is the external `numpy.std` (population
standard deviation), a parameter of the embedding. -/
def team_stats_of_df (std : List ℚ → ℚ) (team : String) (df : List Game) : TeamStats :=
  if df.isEmpty then get_default_stats
  else
    let team_scores := df.map (teamScore team)
    let opponent_scores := df.map (oppScore team)
    let avg_scored := mean team_scores
    let avg_allowed := mean opponent_scores
    let wins := ((team_scores.zip opponent_scores).filter
      (fun p => decide (p.1 > p.2))).length
    let win_percentage :=
      if team_scores.isEmpty then 0 else (wins : ℚ) / (team_scores.length : ℚ)
    let home_games := df.filter (venueIsHome team)
    let away_games := df.filter (fun g => !venueIsHome team g)
    let home_win_pct :=
      if home_games.isEmpty then 1/2 else calculate_win_pct home_games true
    let away_win_pct :=
      if away_games.isEmpty then 1/2 else calculate_win_pct away_games false
    let recent_games := df.take 5
    let recent_wins := (recent_games.filter (fun g =>
      if venueIsHome team g then decide (homeScore g > awayScore g)
      else decide (awayScore g > homeScore g))).length
    let recent_form :=
      if recent_games.isEmpty then 1/2
      else (recent_wins : ℚ) / (recent_games.length : ℚ)
    let scoring_consistency :=
      if team_scores.isEmpty then 1/2 else 1 / (std team_scores + 1)
    { avg_points_scored := avg_scored
      avg_points_allowed := avg_allowed
      avg_point_differential := avg_scored - avg_allowed
      win_percentage := win_percentage
      home_win_pct := home_win_pct
      away_win_pct := away_win_pct
      recent_form := recent_form
      scoring_consistency := scoring_consistency }

/-- `FeatureEngineer.get_team_stats` with the store read succeeding:
run the query, then the stats body. -/
def get_team_stats (std : List ℚ → ℚ) (store : List Game) (team_id : String)
    (games_back : Nat) : TeamStats :=
  team_stats_of_df std team_id (teamQuery store team_id games_back)

/-- `FeatureEngineer.get_team_stats` with its `try/except`: the store
read (`pd.read_sql`) may raise, in which case the handler returns the
default stats.  After a successful read no operation of the body can
raise, which the total function `team_stats_of_df` witnesses. -/
def get_team_stats_exc (std : List ℚ → ℚ) (read : Except Unit (List Game))
    (team_id : String) : TeamStats :=
  match read with
  | Except.ok df => team_stats_of_df std team_id df
  | Except.error _ => get_default_stats

end FeatureEngineer

/-- The dictionary `get_head_to_head_stats` returns. -/
structure H2HStats where
  h2h_win_pct : ℚ
  avg_total_points : ℚ
  avg_margin : ℚ
  deriving DecidableEq, Repr

/-- WHERE clause of the `get_head_to_head_stats` query. -/
def h2hQualifies (team1 team2 : String) (g : Game) : Bool :=
  ((g.home_team_id == team1 && g.away_team_id == team2) ||
    (g.home_team_id == team2 && g.away_team_id == team1)) &&
    g.status == "completed" && g.home_score.isSome && g.away_score.isSome

/-- Result set of the `get_head_to_head_stats` query. -/
def h2hQuery (store : List Game) (team1 team2 : String) (games_back : Nat) : List Game :=
  (sortByDateDesc (store.filter (h2hQualifies team1 team2))).take games_back

namespace FeatureEngineer

/-- Body of `get_head_to_head_stats` after the query result is in hand. -/
def h2h_of_df (team1 : String) (df : List Game) : H2HStats :=
  if df.isEmpty then { h2h_win_pct := 1/2, avg_total_points := 220, avg_margin := 0 }
  else
    let team1_wins := (df.filter (fun g =>
      if g.home_team_id == team1 then decide (homeScore g > awayScore g)
      else decide (awayScore g > homeScore g))).length
    let margins := df.map (fun g =>
      if g.home_team_id == team1 then homeScore g - awayScore g
      else awayScore g - homeScore g)
    let total_points := df.map (fun g => homeScore g + awayScore g)
    { h2h_win_pct := (team1_wins : ℚ) / (df.length : ℚ)
      avg_total_points := mean total_points
      avg_margin := mean margins }

/-- `FeatureEngineer.get_head_to_head_stats` with the read succeeding. -/
def get_head_to_head_stats (store : List Game) (team1 team2 : String)
    (games_back : Nat) : H2HStats :=
  h2h_of_df team1 (h2hQuery store team1 team2 games_back)

/-- `get_head_to_head_stats` with its `try/except` over a possibly
failing store read. -/
def get_head_to_head_stats_exc (read : Except Unit (List Game))
    (team1 : String) : H2HStats :=
  match read with
  | Except.ok df => h2h_of_df team1 df
  | Except.error _ => { h2h_win_pct := 1/2, avg_total_points := 220, avg_margin := 0 }

end FeatureEngineer

/-- Claim C4: for every team identifier with zero qualifying completed
games in the store, `get_team_stats` returns exactly the fixed default
profile (avg scored/allowed 110.0, differential 0.0, all fractions 0.5,
consistency 0.5). -/
theorem get_team_stats_default_profile (std : List ℚ → ℚ) (store : List Game)
    (team : String) (n : Nat) (h : store.filter (teamQualifies team) = []) :
    FeatureEngineer.get_team_stats std store team n =
      { avg_points_scored := 110
        avg_points_allowed := 110
        avg_point_differential := 0
        win_percentage := 1/2
        home_win_pct := 1/2
        away_win_pct := 1/2
        recent_form := 1/2
        scoring_consistency := 1/2 } := by
  unfold FeatureEngineer.get_team_stats teamQuery sortByDateDesc
  rw [h]
  rw [show List.insertionSort dateDesc [] = [] from rfl, List.take_nil]
  rfl

/-- Concrete instance of C4: a store holding one completed game between
two other teams has no qualifying game for team A, and the default
profile comes back. -/
theorem get_team_stats_default_profile_witness :
    FeatureEngineer.get_team_stats (fun _ => 0)
      [⟨1, "B", "C", some 100, some 90, 5, "completed"⟩] ("A") 10 =
      { avg_points_scored := 110
        avg_points_allowed := 110
        avg_point_differential := 0
        win_percentage := 1/2
        home_win_pct := 1/2
        away_win_pct := 1/2
        recent_form := 1/2
        scoring_consistency := 1/2 } :=
  get_team_stats_default_profile (fun _ => 0) _ ("A") 10 (by decide)

/-- Python dict with string keys and numeric values, as the per-model
prediction dicts of `prediction_models.py`.  Consulted with
`List.lookup`; a missing key is a `KeyError` at the consulting site. -/
abbrev PyDict := List (String × ℚ)

/-- Dict subscription `d[k]`: the value, or a raised `KeyError`. -/
def PyDict.getKey (d : PyDict) (k : String) : Except Unit ℚ :=
  match List.lookup k d with
  | some v => Except.ok v
  | none => Except.error ()

/-- The shape of a training corpus (pandas DataFrame) as far as the
`train` guards observe it: its column names and its number of rows.
The cell data itself flows only into the external sklearn fit, which
the embedding abstracts as a parameter. -/
structure DataFrame where
  cols : List String
  nrows : Nat
  deriving DecidableEq, Repr

/-- pandas `DataFrame.empty`: true when either axis has length 0. -/
def DataFrame.empty (df : DataFrame) : Bool :=
  df.nrows == 0 || df.cols.isEmpty

/-- `GameOutcomePredictor` state: the `is_trained` flag and the fitted
scaler+classifier pipeline.  `model = some f` holds a fitted pipeline;
`f` returns row 0 of `predict_proba` (the per-class probabilities), or
raises. -/
structure GameOutcomePredictor (α : Type) where
  is_trained : Bool
  model : Option (α → Except Unit (List ℚ))

/-- `SpreadPredictor` state; the fitted pipeline returns the predicted
signed spread, or raises. -/
structure SpreadPredictor (α : Type) where
  is_trained : Bool
  model : Option (α → Except Unit ℚ)

/-- `TotalPointsPredictor` state; the fitted pipeline returns the
predicted combined score, or raises. -/
structure TotalPointsPredictor (α : Type) where
  is_trained : Bool
  model : Option (α → Except Unit ℚ)

namespace GameOutcomePredictor

/-- `GameOutcomePredictor.__init__`: untrained, no estimator. -/
def init {α : Type} : GameOutcomePredictor α :=
  { is_trained := false, model := none }

/-- Feature subset declared by
`GameOutcomePredictor.prepare_features`. -/
def feature_cols : List String :=
  ["home_avg_scored", "home_avg_allowed", "away_avg_scored", "away_avg_allowed",
   "home_point_diff", "away_point_diff", "point_diff_advantage",
   "home_win_pct", "away_win_pct", "win_pct_advantage",
   "home_court_advantage", "home_recent_form", "away_recent_form", "form_advantage",
   "h2h_win_pct", "home_consistency", "away_consistency"]

/-- `GameOutcomePredictor.train`.  `fit` is the external sklearn block
(split, scale, fit, evaluate, lines 67–91 of the source): it yields a
fitted pipeline or raises; the surrounding `except` returns `False`
leaving `is_trained` unset. -/
def train {α : Type} (m : GameOutcomePredictor α) (training_data : DataFrame)
    (fit : Except Unit (α → Except Unit (List ℚ))) :
    Bool × GameOutcomePredictor α :=
  if training_data.empty || !(training_data.cols.contains ("home_win")) then
    (false, m)
  else
    let available := feature_cols.filter (fun c => training_data.cols.contains c)
    if training_data.nrows == 0 || available.isEmpty then (false, m)
    else
      match fit with
      | Except.ok f => (true, { is_trained := true, model := some f })
      | Except.error _ => (false, m)

/-- `GameOutcomePredictor.predict`.  Note that both the untrained
fallback and the exception fallback omit the `away_win_probability`
key, exactly as the source dict literals do. -/
def predict {α : Type} (m : GameOutcomePredictor α) (features : α) : PyDict :=
  match m.is_trained, m.model with
  | true, some f =>
    match f features with
    | Except.ok row =>
      let home_win_prob := if row.length > 1 then row.getD 1 0 else 1/2
      [("home_win_probability", home_win_prob),
       ("away_win_probability", 1 - home_win_prob),
       ("confidence", |home_win_prob - 1/2| * 2)]
    | Except.error _ => [("home_win_probability", 1/2), ("confidence", 0)]
  | _, _ => [("home_win_probability", 1/2), ("confidence", 0)]

end GameOutcomePredictor

namespace SpreadPredictor

/-- `SpreadPredictor.__init__`. -/
def init {α : Type} : SpreadPredictor α :=
  { is_trained := false, model := none }

/-- Feature subset declared by `SpreadPredictor.prepare_features`. -/
def feature_cols : List String :=
  ["home_avg_scored", "home_avg_allowed", "away_avg_scored", "away_avg_allowed",
   "point_diff_advantage", "win_pct_advantage", "home_court_advantage",
   "form_advantage", "h2h_avg_margin", "projected_spread"]

/-- `SpreadPredictor.train` with the external fit abstracted. -/
def train {α : Type} (m : SpreadPredictor α) (training_data : DataFrame)
    (fit : Except Unit (α → Except Unit ℚ)) : Bool × SpreadPredictor α :=
  if training_data.empty || !(training_data.cols.contains ("point_spread")) then
    (false, m)
  else
    let available := feature_cols.filter (fun c => training_data.cols.contains c)
    if training_data.nrows == 0 || available.isEmpty then (false, m)
    else
      match fit with
      | Except.ok f => (true, { is_trained := true, model := some f })
      | Except.error _ => (false, m)

/-- `SpreadPredictor.predict`: confidence is `min(0.8, |spread|/20)`. -/
def predict {α : Type} (m : SpreadPredictor α) (features : α) : PyDict :=
  match m.is_trained, m.model with
  | true, some f =>
    match f features with
    | Except.ok predicted_spread =>
      [("predicted_spread", predicted_spread),
       ("confidence", min (4/5) (|predicted_spread| / 20))]
    | Except.error _ => [("predicted_spread", 0), ("confidence", 0)]
  | _, _ => [("predicted_spread", 0), ("confidence", 0)]

end SpreadPredictor

namespace TotalPointsPredictor

/-- `TotalPointsPredictor.__init__`. -/
def init {α : Type} : TotalPointsPredictor α :=
  { is_trained := false, model := none }

/-- Feature subset declared by
`TotalPointsPredictor.prepare_features`. -/
def feature_cols : List String :=
  ["home_avg_scored", "home_avg_allowed", "away_avg_scored", "away_avg_allowed",
   "projected_home_score", "projected_away_score", "projected_total",
   "h2h_avg_total", "home_consistency", "away_consistency"]

/-- `TotalPointsPredictor.train` with the external fit abstracted. -/
def train {α : Type} (m : TotalPointsPredictor α) (training_data : DataFrame)
    (fit : Except Unit (α → Except Unit ℚ)) : Bool × TotalPointsPredictor α :=
  if training_data.empty || !(training_data.cols.contains ("total_points")) then
    (false, m)
  else
    let available := feature_cols.filter (fun c => training_data.cols.contains c)
    if training_data.nrows == 0 || available.isEmpty then (false, m)
    else
      match fit with
      | Except.ok f => (true, { is_trained := true, model := some f })
      | Except.error _ => (false, m)

/-- `TotalPointsPredictor.predict`: confidence is
`max(0.1, min(0.8, 1 - |total - 220|/100))`. -/
def predict {α : Type} (m : TotalPointsPredictor α) (features : α) : PyDict :=
  match m.is_trained, m.model with
  | true, some f =>
    match f features with
    | Except.ok predicted_total =>
      [("predicted_total", predicted_total),
       ("confidence", max (1/10) (min (4/5) (1 - |predicted_total - 220| / 100)))]
    | Except.error _ => [("predicted_total", 220), ("confidence", 0)]
  | _, _ => [("predicted_total", 220), ("confidence", 0)]

end TotalPointsPredictor

/-- The merged prediction object of `MLModelManager.predict_game`.
`model_name` is optional because the fully-defaulted bundle of the
exception handler omits that key (the wall-clock `prediction_time` key
is not modelled). -/
structure Prediction where
  home_win_probability : ℚ
  away_win_probability : ℚ
  predicted_spread : ℚ
  predicted_total : ℚ
  confidence_outcome : ℚ
  confidence_spread : ℚ
  confidence_total : ℚ
  model_name : Option String
  deriving DecidableEq, Repr

/-- `MLModelManager` state: the three predictor instances. -/
structure MLModelManager (α : Type) where
  outcome_model : GameOutcomePredictor α
  spread_model : SpreadPredictor α
  total_model : TotalPointsPredictor α

namespace MLModelManager

/-- The fully-defaulted neutral bundle returned by the `except` branch
of `predict_game` (source lines 404–410). -/
def default_predictions : Prediction :=
  { home_win_probability := 1/2
    away_win_probability := 1/2
    predicted_spread := 0
    predicted_total := 220
    confidence_outcome := 0
    confidence_spread := 0
    confidence_total := 0
    model_name := none }

/-- Body of the `try` block of `MLModelManager.predict_game`:
`features_res` is the outcome of the feature-vector build (which may
raise), each model is queried, and the merged dict literal is built by
key subscription — any missing key raises a `KeyError` here. -/
def predict_game_exc {α : Type} (M : MLModelManager α)
    (features_res : Except Unit α) : Except Unit Prediction := do
  let features ← features_res
  let outcome_pred := M.outcome_model.predict features
  let spread_pred := M.spread_model.predict features
  let total_pred := M.total_model.predict features
  let hwp ← outcome_pred.getKey ("home_win_probability")
  let awp ← outcome_pred.getKey ("away_win_probability")
  let ps ← spread_pred.getKey ("predicted_spread")
  let pt ← total_pred.getKey ("predicted_total")
  let co ← outcome_pred.getKey ("confidence")
  let cs ← spread_pred.getKey ("confidence")
  let ct ← total_pred.getKey ("confidence")
  Except.ok
    { home_win_probability := hwp
      away_win_probability := awp
      predicted_spread := ps
      predicted_total := pt
      confidence_outcome := co
      confidence_spread := cs
      confidence_total := ct
      model_name := some ("Project Apex ML") }

/-- `MLModelManager.predict_game`: the `try` body, with the catch-all
`except` resolving every failure to the neutral bundle. -/
def predict_game {α : Type} (M : MLModelManager α)
    (features_res : Except Unit α) : Prediction :=
  match M.predict_game_exc features_res with
  | Except.ok p => p
  | Except.error _ => default_predictions

end MLModelManager

/-- Claim C1: `predict_game` never propagates a failure to the caller:
it is a total function of the manager state and the possibly-failing
feature build, every failure of the try body resolves to exactly the
fully-defaulted neutral bundle (0.5/0.5 probabilities, spread 0.0,
total 220.0, all confidences 0.0), and every success of the try body
is returned unchanged. -/
theorem predict_game_never_raises {α : Type} (M : MLModelManager α)
    (r : Except Unit α) :
    (M.predict_game_exc r = Except.error () →
      M.predict_game r =
        { home_win_probability := 1/2
          away_win_probability := 1/2
          predicted_spread := 0
          predicted_total := 220
          confidence_outcome := 0
          confidence_spread := 0
          confidence_total := 0
          model_name := none }) ∧
    (∀ p, M.predict_game_exc r = Except.ok p → M.predict_game r = p) := by
  constructor
  · intro h
    unfold MLModelManager.predict_game
    rw [h]
    rfl
  · intro p h
    unfold MLModelManager.predict_game
    rw [h]

/-- Concrete instance of C1: with all three models untrained the merge
raises a `KeyError` (the outcome fallback has no
`away_win_probability` key) and `predict_game` resolves it to the
neutral bundle. -/
theorem predict_game_never_raises_witness :
    MLModelManager.predict_game (α := Unit)
      { outcome_model := GameOutcomePredictor.init
        spread_model := SpreadPredictor.init
        total_model := TotalPointsPredictor.init } (Except.ok ()) =
      { home_win_probability := 1/2
        away_win_probability := 1/2
        predicted_spread := 0
        predicted_total := 220
        confidence_outcome := 0
        confidence_spread := 0
        confidence_total := 0
        model_name := none } :=
  (predict_game_never_raises _ _).1 (by rfl)

/-- Claim C2 (bug evidence): with only the outcome model unready and
the spread and total models trained (predicting spread 5 with
confidence 0.25 and total 210 with confidence 0.8), `predict_game`
does not merge the trained values: the untrained outcome fallback
lacks the `away_win_probability` key, the resulting `KeyError` hits
the catch-all, and the bundle comes back fully defaulted (spread 0.0,
total 220.0, zero confidences). -/
theorem predict_game_outcome_unready_drops_trained_values :
    (MLModelManager.predict_game (α := Unit)
      { outcome_model := { is_trained := false, model := none }
        spread_model := { is_trained := true, model := some (fun _ => Except.ok 5) }
        total_model := { is_trained := true, model := some (fun _ => Except.ok 210) } }
      (Except.ok ()) = MLModelManager.default_predictions) ∧
    (SpreadPredictor.predict (α := Unit)
      { is_trained := true, model := some (fun _ => Except.ok 5) } () =
      [("predicted_spread", 5), ("confidence", 1/4)]) ∧
    (TotalPointsPredictor.predict (α := Unit)
      { is_trained := true, model := some (fun _ => Except.ok 210) } () =
      [("predicted_total", 210), ("confidence", 4/5)]) ∧
    (List.lookup ("away_win_probability")
      (GameOutcomePredictor.predict (α := Unit)
        { is_trained := false, model := none } ()) = none) := by
  refine ⟨by rfl, ?_, ?_, by rfl⟩
  · show _ = _
    norm_num [SpreadPredictor.predict, min_def]
  · show _ = _
    norm_num [TotalPointsPredictor.predict, min_def, max_def, abs_of_nonpos]

/-- Claim C3: training any of the three fresh predictors on an empty
corpus returns failure and performs no state transition, and the
subsequent `predict` on the resulting state returns exactly the
documented neutral fallback of that model. -/
theorem train_empty_corpus_neutral_fallback {α : Type} (df : DataFrame)
    (h : df.nrows = 0)
    (fit_o : Except Unit (α → Except Unit (List ℚ)))
    (fit_s : Except Unit (α → Except Unit ℚ))
    (fit_t : Except Unit (α → Except Unit ℚ)) (x : α) :
    GameOutcomePredictor.train GameOutcomePredictor.init df fit_o =
      (false, GameOutcomePredictor.init) ∧
    SpreadPredictor.train SpreadPredictor.init df fit_s =
      (false, SpreadPredictor.init) ∧
    TotalPointsPredictor.train TotalPointsPredictor.init df fit_t =
      (false, TotalPointsPredictor.init) ∧
    GameOutcomePredictor.predict
      (GameOutcomePredictor.train GameOutcomePredictor.init df fit_o).2 x =
      [("home_win_probability", 1/2), ("confidence", 0)] ∧
    SpreadPredictor.predict
      (SpreadPredictor.train SpreadPredictor.init df fit_s).2 x =
      [("predicted_spread", 0), ("confidence", 0)] ∧
    TotalPointsPredictor.predict
      (TotalPointsPredictor.train TotalPointsPredictor.init df fit_t).2 x =
      [("predicted_total", 220), ("confidence", 0)] := by
  have hemp : df.empty = true := by
    simp [DataFrame.empty, h]
  have h1 : GameOutcomePredictor.train (α := α) GameOutcomePredictor.init df fit_o =
      (false, GameOutcomePredictor.init) := by
    unfold GameOutcomePredictor.train
    rw [hemp]
    rfl
  have h2 : SpreadPredictor.train (α := α) SpreadPredictor.init df fit_s =
      (false, SpreadPredictor.init) := by
    unfold SpreadPredictor.train
    rw [hemp]
    rfl
  have h3 : TotalPointsPredictor.train (α := α) TotalPointsPredictor.init df fit_t =
      (false, TotalPointsPredictor.init) := by
    unfold TotalPointsPredictor.train
    rw [hemp]
    rfl
  refine ⟨h1, h2, h3, ?_, ?_, ?_⟩
  · rw [h1]
    exact rfl
  · rw [h2]
    exact rfl
  · rw [h3]
    exact rfl

/-- Concrete instance of C3: the empty DataFrame, failing fits, a unit
feature vector. -/
theorem train_empty_corpus_neutral_fallback_witness :
    GameOutcomePredictor.train (α := Unit) GameOutcomePredictor.init
        { cols := [], nrows := 0 } (Except.error ()) =
      (false, GameOutcomePredictor.init) ∧
    SpreadPredictor.train (α := Unit) SpreadPredictor.init
        { cols := [], nrows := 0 } (Except.error ()) =
      (false, SpreadPredictor.init) ∧
    TotalPointsPredictor.train (α := Unit) TotalPointsPredictor.init
        { cols := [], nrows := 0 } (Except.error ()) =
      (false, TotalPointsPredictor.init) ∧
    GameOutcomePredictor.predict (α := Unit)
      (GameOutcomePredictor.train GameOutcomePredictor.init
        { cols := [], nrows := 0 } (Except.error ())).2 () =
      [("home_win_probability", 1/2), ("confidence", 0)] ∧
    SpreadPredictor.predict (α := Unit)
      (SpreadPredictor.train SpreadPredictor.init
        { cols := [], nrows := 0 } (Except.error ())).2 () =
      [("predicted_spread", 0), ("confidence", 0)] ∧
    TotalPointsPredictor.predict (α := Unit)
      (TotalPointsPredictor.train TotalPointsPredictor.init
        { cols := [], nrows := 0 } (Except.error ())).2 () =
      [("predicted_total", 220), ("confidence", 0)] :=
  train_empty_corpus_neutral_fallback { cols := [], nrows := 0 } rfl
    (Except.error ()) (Except.error ()) (Except.error ()) ()

/-- Equation lemma: an untrained outcome model predicts the neutral
fallback. -/
theorem GameOutcomePredictor.predict_untrained {α : Type}
    (mod : Option (α → Except Unit (List ℚ))) (x : α) :
    GameOutcomePredictor.predict { is_trained := false, model := mod } x =
      [("home_win_probability", 1/2), ("confidence", 0)] :=
  rfl

/-- Equation lemma: an outcome model with no estimator predicts the
neutral fallback. -/
theorem GameOutcomePredictor.predict_nomodel {α : Type} (tr : Bool) (x : α) :
    GameOutcomePredictor.predict { is_trained := tr, model := none } x =
      [("home_win_probability", 1/2), ("confidence", 0)] := by
  cases tr <;> rfl

/-- Equation lemma: a trained outcome model runs its pipeline. -/
theorem GameOutcomePredictor.outcome_predict_trained {α : Type}
    (f : α → Except Unit (List ℚ)) (x : α) :
    GameOutcomePredictor.predict { is_trained := true, model := some f } x =
      (match f x with
       | Except.ok row =>
         let home_win_prob := if row.length > 1 then row.getD 1 0 else 1/2
         [("home_win_probability", home_win_prob),
          ("away_win_probability", 1 - home_win_prob),
          ("confidence", |home_win_prob - 1/2| * 2)]
       | Except.error _ => [("home_win_probability", 1/2), ("confidence", 0)]) :=
  rfl

/-- Equation lemma: an unready spread model predicts the neutral
fallback. -/
theorem SpreadPredictor.spread_predict_unready {α : Type} (tr : Bool)
    (mod : Option (α → Except Unit ℚ)) (x : α)
    (h : tr = false ∨ mod = none) :
    SpreadPredictor.predict { is_trained := tr, model := mod } x =
      [("predicted_spread", 0), ("confidence", 0)] := by
  rcases h with h | h
  · subst h
    rfl
  · subst h
    cases tr <;> rfl

/-- Equation lemma: a trained spread model runs its pipeline. -/
theorem SpreadPredictor.spread_predict_trained {α : Type}
    (f : α → Except Unit ℚ) (x : α) :
    SpreadPredictor.predict { is_trained := true, model := some f } x =
      (match f x with
       | Except.ok s =>
         [("predicted_spread", s), ("confidence", min (4/5) (|s| / 20))]
       | Except.error _ => [("predicted_spread", 0), ("confidence", 0)]) :=
  rfl

/-- Equation lemma: an unready total model predicts the neutral
fallback. -/
theorem TotalPointsPredictor.total_predict_unready {α : Type} (tr : Bool)
    (mod : Option (α → Except Unit ℚ)) (x : α)
    (h : tr = false ∨ mod = none) :
    TotalPointsPredictor.predict { is_trained := tr, model := mod } x =
      [("predicted_total", 220), ("confidence", 0)] := by
  rcases h with h | h
  · subst h
    rfl
  · subst h
    cases tr <;> rfl

/-- Equation lemma: a trained total model runs its pipeline. -/
theorem TotalPointsPredictor.total_predict_trained {α : Type}
    (f : α → Except Unit ℚ) (x : α) :
    TotalPointsPredictor.predict { is_trained := true, model := some f } x =
      (match f x with
       | Except.ok t =>
         [("predicted_total", t),
          ("confidence", max (1/10) (min (4/5) (1 - |t - 220| / 100)))]
       | Except.error _ => [("predicted_total", 220), ("confidence", 0)]) :=
  rfl

/-- The confidence entry of `GameOutcomePredictor.predict` lies in
`[0, 1]`, assuming the sklearn contract that the class-1 probability of
`predict_proba` lies in `[0, 1]`. -/
theorem outcome_confidence_bound {α : Type} (mo : GameOutcomePredictor α) (x : α)
    (hprob : ∀ f row, mo.model = some f → f x = Except.ok row →
      0 ≤ row.getD 1 0 ∧ row.getD 1 0 ≤ 1) :
    ∀ c, List.lookup ("confidence") (mo.predict x) = some c → 0 ≤ c ∧ c ≤ 1 := by
  obtain ⟨otr, omod⟩ := mo
  intro c hc
  cases otr with
  | false =>
    rw [GameOutcomePredictor.predict_untrained] at hc
    have h0 : List.lookup ("confidence")
        [(("home_win_probability" : String), (1:ℚ)/2), ("confidence", 0)] =
        some 0 := rfl
    rw [h0] at hc
    obtain rfl : c = 0 := (Option.some.inj hc).symm
    norm_num
  | true =>
    cases omod with
    | none =>
      rw [GameOutcomePredictor.predict_nomodel] at hc
      have h0 : List.lookup ("confidence")
          [(("home_win_probability" : String), (1:ℚ)/2), ("confidence", 0)] =
          some 0 := rfl
      rw [h0] at hc
      obtain rfl : c = 0 := (Option.some.inj hc).symm
      norm_num
    | some f =>
      rw [GameOutcomePredictor.outcome_predict_trained] at hc
      rcases hfx : f x with e | row
      · rw [hfx] at hc
        have h0 : List.lookup ("confidence")
            [(("home_win_probability" : String), (1:ℚ)/2), ("confidence", 0)] =
            some 0 := rfl
        rw [show (match (Except.error e : Except Unit (List ℚ)) with
            | Except.ok row =>
              let home_win_prob := if row.length > 1 then row.getD 1 0 else 1/2
              [("home_win_probability", home_win_prob),
               ("away_win_probability", 1 - home_win_prob),
               ("confidence", |home_win_prob - 1/2| * 2)]
            | Except.error _ =>
              [("home_win_probability", 1/2), ("confidence", 0)]) =
            [(("home_win_probability" : String), (1:ℚ)/2), ("confidence", 0)]
          from rfl, h0] at hc
        obtain rfl : c = 0 := (Option.some.inj hc).symm
        norm_num
      · rw [hfx] at hc
        have h1 : List.lookup ("confidence")
            (match (Except.ok row : Except Unit (List ℚ)) with
             | Except.ok row =>
               let home_win_prob := if row.length > 1 then row.getD 1 0 else 1/2
               [("home_win_probability", home_win_prob),
                ("away_win_probability", 1 - home_win_prob),
                ("confidence", |home_win_prob - 1/2| * 2)]
             | Except.error _ =>
               [("home_win_probability", 1/2), ("confidence", 0)]) =
            some (|(if row.length > 1 then row.getD 1 0 else 1/2) - 1/2| * 2) := rfl
        rw [h1] at hc
        obtain rfl : c = |(if row.length > 1 then row.getD 1 0 else 1/2) - 1/2| * 2 :=
          (Option.some.inj hc).symm
        constructor
        · positivity
        · by_cases hlen : row.length > 1
          · rw [if_pos hlen]
            obtain ⟨hp0, hp1⟩ := hprob f row rfl hfx
            rcases abs_cases (row.getD 1 0 - 1/2) with ⟨heq, _⟩ | ⟨heq, _⟩ <;>
              rw [heq] <;> linarith
          · rw [if_neg hlen]
            norm_num

/-- The confidence entry of `SpreadPredictor.predict` lies in
`[0, 0.8]` in every state. -/
theorem spread_confidence_bound {α : Type} (ms : SpreadPredictor α) (x : α) :
    ∀ c, List.lookup ("confidence") (ms.predict x) = some c →
      0 ≤ c ∧ c ≤ 4/5 := by
  obtain ⟨str, smod⟩ := ms
  intro c hc
  have hzero : ∀ hc0 : List.lookup ("confidence")
      [(("predicted_spread" : String), (0:ℚ)), ("confidence", 0)] = some c,
      0 ≤ c ∧ c ≤ 4/5 := by
    intro hc0
    have h0 : List.lookup ("confidence")
        [(("predicted_spread" : String), (0:ℚ)), ("confidence", 0)] = some 0 := rfl
    rw [h0] at hc0
    obtain rfl : c = 0 := (Option.some.inj hc0).symm
    norm_num
  cases str with
  | false =>
    rw [SpreadPredictor.spread_predict_unready false smod x (Or.inl rfl)] at hc
    exact hzero hc
  | true =>
    cases smod with
    | none =>
      rw [SpreadPredictor.spread_predict_unready true none x (Or.inr rfl)] at hc
      exact hzero hc
    | some f =>
      rw [SpreadPredictor.spread_predict_trained] at hc
      rcases hfx : f x with e | s
      · rw [hfx] at hc
        exact hzero hc
      · rw [hfx] at hc
        have h1 : List.lookup ("confidence")
            (match (Except.ok s : Except Unit ℚ) with
             | Except.ok s =>
               [("predicted_spread", s), ("confidence", min (4/5) (|s| / 20))]
             | Except.error _ =>
               [("predicted_spread", 0), ("confidence", 0)]) =
            some (min (4/5) (|s| / 20)) := rfl
        rw [h1] at hc
        obtain rfl : c = min (4/5) (|s| / 20) := (Option.some.inj hc).symm
        refine ⟨le_min (by norm_num) (by positivity), min_le_left _ _⟩

/-- The confidence entry of `TotalPointsPredictor.predict` lies in
`[0, 1]` in every state, and in `[0.1, 0.8]` on the trained success
path. -/
theorem total_confidence_bound {α : Type} (mt : TotalPointsPredictor α) (x : α) :
    (∀ c, List.lookup ("confidence") (mt.predict x) = some c →
      0 ≤ c ∧ c ≤ 1) ∧
    (∀ f t, mt.is_trained = true → mt.model = some f → f x = Except.ok t →
      ∀ c, List.lookup ("confidence") (mt.predict x) = some c →
        1/10 ≤ c ∧ c ≤ 4/5) := by
  obtain ⟨ttr, tmod⟩ := mt
  have hmatch : ∀ t : ℚ, List.lookup ("confidence")
      (match (Except.ok t : Except Unit ℚ) with
       | Except.ok t =>
         [("predicted_total", t),
          ("confidence", max (1/10) (min (4/5) (1 - |t - 220| / 100)))]
       | Except.error _ =>
         [("predicted_total", 220), ("confidence", 0)]) =
      some (max (1/10) (min (4/5) (1 - |t - 220| / 100))) := fun _ => rfl
  have hband : ∀ t : ℚ, 1/10 ≤ max ((1:ℚ)/10) (min (4/5) (1 - |t - 220| / 100)) ∧
      max ((1:ℚ)/10) (min (4/5) (1 - |t - 220| / 100)) ≤ 4/5 := by
    intro t
    refine ⟨le_max_left _ _, max_le (by norm_num) ?_⟩
    exact le_trans (min_le_left _ _) (by norm_num)
  constructor
  · intro c hc
    have hzero : ∀ hc0 : List.lookup ("confidence")
        [(("predicted_total" : String), (220:ℚ)), ("confidence", 0)] = some c,
        0 ≤ c ∧ c ≤ 1 := by
      intro hc0
      have h0 : List.lookup ("confidence")
          [(("predicted_total" : String), (220:ℚ)), ("confidence", 0)] = some 0 := rfl
      rw [h0] at hc0
      obtain rfl : c = 0 := (Option.some.inj hc0).symm
      norm_num
    cases ttr with
    | false =>
      rw [TotalPointsPredictor.total_predict_unready false tmod x (Or.inl rfl)] at hc
      exact hzero hc
    | true =>
      cases tmod with
      | none =>
        rw [TotalPointsPredictor.total_predict_unready true none x (Or.inr rfl)] at hc
        exact hzero hc
      | some f =>
        rw [TotalPointsPredictor.total_predict_trained] at hc
        rcases hfx : f x with e | t
        · rw [hfx] at hc
          exact hzero hc
        · rw [hfx, hmatch t] at hc
          obtain rfl : c = max (1/10) (min (4/5) (1 - |t - 220| / 100)) :=
            (Option.some.inj hc).symm
          obtain ⟨hlo, hhi⟩ := hband t
          constructor <;> linarith
  · intro f t htr hmod hfx c hc
    subst htr
    cases hmod
    rw [TotalPointsPredictor.total_predict_trained, hfx, hmatch t] at hc
    obtain rfl : c = max (1/10) (min (4/5) (1 - |t - 220| / 100)) :=
      (Option.some.inj hc).symm
    exact hband t

/-- Claim C7: for every feature vector and every model state the
confidence entry returned by each of the three predictors lies in
`[0, 1]`; on the trained success path the outcome confidence is
exactly `|p(home win) - 0.5| * 2`, the spread confidence is capped at
`0.8`, and the total confidence lies in `[0.1, 0.8]`.  The hypothesis
is the sklearn contract that the classifier class probability lies in
`[0, 1]`. -/
theorem predictor_confidence_bounds {α : Type}
    (mo : GameOutcomePredictor α) (ms : SpreadPredictor α)
    (mt : TotalPointsPredictor α) (x : α)
    (hprob : ∀ f row, mo.model = some f → f x = Except.ok row →
      0 ≤ row.getD 1 0 ∧ row.getD 1 0 ≤ 1) :
    (∀ c, List.lookup ("confidence") (mo.predict x) = some c →
      0 ≤ c ∧ c ≤ 1) ∧
    (∀ c, List.lookup ("confidence") (ms.predict x) = some c →
      0 ≤ c ∧ c ≤ 4/5) ∧
    (∀ c, List.lookup ("confidence") (mt.predict x) = some c →
      0 ≤ c ∧ c ≤ 1) ∧
    (∀ f row, mo.is_trained = true → mo.model = some f → f x = Except.ok row →
      List.lookup ("confidence") (mo.predict x) =
        some (|(if row.length > 1 then row.getD 1 0 else 1/2) - 1/2| * 2)) ∧
    (∀ f t, mt.is_trained = true → mt.model = some f → f x = Except.ok t →
      ∀ c, List.lookup ("confidence") (mt.predict x) = some c →
        1/10 ≤ c ∧ c ≤ 4/5) := by
  refine ⟨outcome_confidence_bound mo x hprob, spread_confidence_bound ms x,
    (total_confidence_bound mt x).1, ?_, (total_confidence_bound mt x).2⟩
  intro f row htr hmod hfx
  obtain ⟨otr, omod⟩ := mo
  cases htr
  cases hmod
  rw [GameOutcomePredictor.outcome_predict_trained, hfx]
  exact rfl

/-- Concrete instance of C7: a trained outcome model returning class
probabilities `[0.3, 0.7]`, a trained spread model predicting 5, a
trained total model predicting 210; the spread confidence 0.25 is
inside `[0, 0.8]`. -/
theorem predictor_confidence_bounds_witness :
    0 ≤ min ((4:ℚ)/5) (|(5:ℚ)| / 20) ∧ min ((4:ℚ)/5) (|(5:ℚ)| / 20) ≤ 4/5 :=
  (predictor_confidence_bounds (α := Unit)
      { is_trained := true, model := some (fun _ => Except.ok [3/10, 7/10]) }
      { is_trained := true, model := some (fun _ => Except.ok 5) }
      { is_trained := true, model := some (fun _ => Except.ok 210) } ()
      (by
        intro f row hf hrow
        obtain rfl : (fun _ => Except.ok [3/10, 7/10]) = f := Option.some.inj hf
        obtain rfl : [3/10, 7/10] = row := Except.ok.inj hrow
        norm_num [List.getD])).2.1 (min (4/5) (|(5:ℚ)| / 20)) (by rfl)

/-- One row of the `predictions` table. -/
structure PredRow where
  game_id : Nat
  model_name : String
  prediction_type : String
  predicted_value : ℚ
  confidence : ℚ
  actual_value : Option ℚ
  is_correct : Option Bool
  deriving DecidableEq, Repr

/-- The completed-game row the accuracy UPDATEs join against, if any:
`p.game_id = g.id AND g.status = completed AND both scores non-null`. -/
def joinGame (games : List Game) (p : PredRow) : Option Game :=
  games.find? (fun g => g.id == p.game_id && g.status == "completed" &&
    g.home_score.isSome && g.away_score.isSome)

/-- First UPDATE of `update_prediction_accuracy` (winner rows with
`actual_value IS NULL`): realized home win as 1/0, correct iff the
probability side matches the realized comparison. -/
def updateWinnerRow (games : List Game) (p : PredRow) : PredRow :=
  if p.prediction_type == "winner" && p.actual_value.isNone then
    match joinGame games p with
    | some g =>
      { p with
        actual_value := some (if homeScore g > awayScore g then 1 else 0)
        is_correct := some
          ((decide (p.predicted_value > 1/2) && decide (homeScore g > awayScore g)) ||
           (decide (p.predicted_value ≤ 1/2) && decide (homeScore g ≤ awayScore g))) }
    | none => p
  else p

/-- Second UPDATE (spread rows): realized margin, correct iff within
3 points. -/
def updateSpreadRow (games : List Game) (p : PredRow) : PredRow :=
  if p.prediction_type == "spread" && p.actual_value.isNone then
    match joinGame games p with
    | some g =>
      { p with
        actual_value := some (homeScore g - awayScore g)
        is_correct := some
          (decide (|p.predicted_value - (homeScore g - awayScore g)| ≤ 3)) }
    | none => p
  else p

/-- Third UPDATE (total rows): realized combined score, correct iff
within 5 points. -/
def updateTotalRow (games : List Game) (p : PredRow) : PredRow :=
  if p.prediction_type == "total" && p.actual_value.isNone then
    match joinGame games p with
    | some g =>
      { p with
        actual_value := some (homeScore g + awayScore g)
        is_correct := some
          (decide (|p.predicted_value - (homeScore g + awayScore g)| ≤ 5)) }
    | none => p
  else p

/-- `PredictionGenerator.update_prediction_accuracy`: the three UPDATE
statements in order, each one full pass over the predictions table. -/
def update_prediction_accuracy (games : List Game) (preds : List PredRow) :
    List PredRow :=
  ((preds.map (updateWinnerRow games)).map (updateSpreadRow games)).map
    (updateTotalRow games)

/-- Claim C5: for a prediction row of a completed game with both scores
present and `actual_value` unset, reconciliation sets the correctness
flag exactly by the fixed tolerance bands: winner correct iff the
probability side (>0.5 vs ≤0.5) matches the realized score comparison,
spread correct iff within 3 of home − away, total correct iff within 5
of home + away; each realized value is recorded as `actual_value`. -/
theorem reconciliation_tolerance_bands (games : List Game) (p : PredRow)
    (g : Game) (hg : joinGame games p = some g)
    (hnull : p.actual_value = none) :
    (p.prediction_type = "winner" →
      (updateWinnerRow games p).actual_value =
        some (if homeScore g > awayScore g then 1 else 0) ∧
      ((updateWinnerRow games p).is_correct = some true ↔
        ((p.predicted_value > 1/2 ∧ homeScore g > awayScore g) ∨
         (p.predicted_value ≤ 1/2 ∧ homeScore g ≤ awayScore g)))) ∧
    (p.prediction_type = "spread" →
      (updateSpreadRow games p).actual_value = some (homeScore g - awayScore g) ∧
      (updateSpreadRow games p).is_correct =
        some (decide (|p.predicted_value - (homeScore g - awayScore g)| ≤ 3)) ∧
      ((updateSpreadRow games p).is_correct = some true ↔
        |p.predicted_value - (homeScore g - awayScore g)| ≤ 3)) ∧
    (p.prediction_type = "total" →
      (updateTotalRow games p).actual_value = some (homeScore g + awayScore g) ∧
      ((updateTotalRow games p).is_correct = some true ↔
        |p.predicted_value - (homeScore g + awayScore g)| ≤ 5)) := by
  refine ⟨fun ht => ?_, fun ht => ?_, fun ht => ?_⟩
  · rw [updateWinnerRow, if_pos (by simp [ht, hnull]), hg]
    simp
  · rw [updateSpreadRow, if_pos (by simp [ht, hnull]), hg]
    simp
  · rw [updateTotalRow, if_pos (by simp [ht, hnull]), hg]
    simp

/-- Concrete instance of C5, the reconciliation scenario of the spec: a
completed game 100–90, a prior spread prediction of 7 is marked
correct, a prior spread prediction of 2 is marked incorrect. -/
theorem reconciliation_tolerance_bands_witness :
    (updateSpreadRow [⟨1, "A", "B", some 100, some 90, 1, "completed"⟩]
      { game_id := 1, model_name := "Project Apex ML",
        prediction_type := "spread", predicted_value := 7,
        confidence := 1/2, actual_value := none,
        is_correct := none }).is_correct = some true ∧
    ¬ ((updateSpreadRow [⟨1, "A", "B", some 100, some 90, 1, "completed"⟩]
      { game_id := 1, model_name := "Project Apex ML",
        prediction_type := "spread", predicted_value := 2,
        confidence := 1/2, actual_value := none,
        is_correct := none }).is_correct = some true) := by
  constructor
  · exact ((reconciliation_tolerance_bands
      [⟨1, "A", "B", some 100, some 90, 1, "completed"⟩]
      { game_id := 1, model_name := "Project Apex ML",
        prediction_type := "spread", predicted_value := 7,
        confidence := 1/2, actual_value := none, is_correct := none }
      ⟨1, "A", "B", some 100, some 90, 1, "completed"⟩
      (by rfl) rfl).2.1 rfl).2.2.mpr (by norm_num [homeScore, awayScore])
  · intro hcontra
    have h8 : |(2:ℚ) - (homeScore ⟨1, "A", "B", some 100, some 90, 1, "completed"⟩ -
        awayScore ⟨1, "A", "B", some 100, some 90, 1, "completed"⟩)| ≤ 3 :=
      ((reconciliation_tolerance_bands
        [⟨1, "A", "B", some 100, some 90, 1, "completed"⟩]
        { game_id := 1, model_name := "Project Apex ML",
          prediction_type := "spread", predicted_value := 2,
          confidence := 1/2, actual_value := none, is_correct := none }
        ⟨1, "A", "B", some 100, some 90, 1, "completed"⟩
        (by rfl) rfl).2.1 rfl).2.2.mp hcontra
    norm_num [homeScore, awayScore] at h8

/-- The winner UPDATE never changes a row's prediction type. -/
theorem updateWinnerRow_type (games : List Game) (p : PredRow) :
    (updateWinnerRow games p).prediction_type = p.prediction_type := by
  unfold updateWinnerRow
  split
  · split <;> rfl
  · rfl

/-- The spread UPDATE never changes a row's prediction type. -/
theorem updateSpreadRow_type (games : List Game) (p : PredRow) :
    (updateSpreadRow games p).prediction_type = p.prediction_type := by
  unfold updateSpreadRow
  split
  · split <;> rfl
  · rfl

/-- The total UPDATE never changes a row's prediction type. -/
theorem updateTotalRow_type (games : List Game) (p : PredRow) :
    (updateTotalRow games p).prediction_type = p.prediction_type := by
  unfold updateTotalRow
  split
  · split <;> rfl
  · rfl

/-- The winner UPDATE skips a row whose `actual_value` is already
populated. -/
theorem updateWinnerRow_of_some (games : List Game) (p : PredRow)
    (h : p.actual_value.isSome) : updateWinnerRow games p = p := by
  obtain ⟨v, hv⟩ := Option.isSome_iff_exists.mp h
  unfold updateWinnerRow
  rw [hv]
  simp

/-- The spread UPDATE skips a row whose `actual_value` is already
populated. -/
theorem updateSpreadRow_of_some (games : List Game) (p : PredRow)
    (h : p.actual_value.isSome) : updateSpreadRow games p = p := by
  obtain ⟨v, hv⟩ := Option.isSome_iff_exists.mp h
  unfold updateSpreadRow
  rw [hv]
  simp

/-- The total UPDATE skips a row whose `actual_value` is already
populated. -/
theorem updateTotalRow_of_some (games : List Game) (p : PredRow)
    (h : p.actual_value.isSome) : updateTotalRow games p = p := by
  obtain ⟨v, hv⟩ := Option.isSome_iff_exists.mp h
  unfold updateTotalRow
  rw [hv]
  simp

/-- The winner UPDATE skips rows of another prediction type. -/
theorem updateWinnerRow_not_type (games : List Game) (p : PredRow)
    (h : ¬ p.prediction_type = "winner") : updateWinnerRow games p = p := by
  simp [updateWinnerRow, h]

/-- The spread UPDATE skips rows of another prediction type. -/
theorem updateSpreadRow_not_type (games : List Game) (p : PredRow)
    (h : ¬ p.prediction_type = "spread") : updateSpreadRow games p = p := by
  simp [updateSpreadRow, h]

/-- The total UPDATE skips rows of another prediction type. -/
theorem updateTotalRow_not_type (games : List Game) (p : PredRow)
    (h : ¬ p.prediction_type = "total") : updateTotalRow games p = p := by
  simp [updateTotalRow, h]

/-- The winner UPDATE either leaves a row unchanged or populates its
`actual_value`. -/
theorem updateWinnerRow_sets_or_id (games : List Game) (p : PredRow) :
    updateWinnerRow games p = p ∨ (updateWinnerRow games p).actual_value.isSome := by
  unfold updateWinnerRow
  split
  · split
    · right
      rfl
    · left
      rfl
  · left
    rfl

/-- The spread UPDATE either leaves a row unchanged or populates its
`actual_value`. -/
theorem updateSpreadRow_sets_or_id (games : List Game) (p : PredRow) :
    updateSpreadRow games p = p ∨ (updateSpreadRow games p).actual_value.isSome := by
  unfold updateSpreadRow
  split
  · split
    · right
      rfl
    · left
      rfl
  · left
    rfl

/-- The total UPDATE either leaves a row unchanged or populates its
`actual_value`. -/
theorem updateTotalRow_sets_or_id (games : List Game) (p : PredRow) :
    updateTotalRow games p = p ∨ (updateTotalRow games p).actual_value.isSome := by
  unfold updateTotalRow
  split
  · split
    · right
      rfl
    · left
      rfl
  · left
    rfl

/-- The winner UPDATE is idempotent on a row. -/
theorem updateWinnerRow_idem (games : List Game) (p : PredRow) :
    updateWinnerRow games (updateWinnerRow games p) = updateWinnerRow games p := by
  rcases updateWinnerRow_sets_or_id games p with h | h
  · rw [h]
    exact h
  · exact updateWinnerRow_of_some games _ h

/-- The spread UPDATE is idempotent on a row. -/
theorem updateSpreadRow_idem (games : List Game) (p : PredRow) :
    updateSpreadRow games (updateSpreadRow games p) = updateSpreadRow games p := by
  rcases updateSpreadRow_sets_or_id games p with h | h
  · rw [h]
    exact h
  · exact updateSpreadRow_of_some games _ h

/-- The total UPDATE is idempotent on a row. -/
theorem updateTotalRow_idem (games : List Game) (p : PredRow) :
    updateTotalRow games (updateTotalRow games p) = updateTotalRow games p := by
  rcases updateTotalRow_sets_or_id games p with h | h
  · rw [h]
    exact h
  · exact updateTotalRow_of_some games _ h

/-- One reconciliation pass applied twice to a row equals one pass. -/
theorem reconciliation_idem_row (games : List Game) (p : PredRow) :
    updateTotalRow games (updateSpreadRow games (updateWinnerRow games
      (updateTotalRow games (updateSpreadRow games (updateWinnerRow games p))))) =
      updateTotalRow games (updateSpreadRow games (updateWinnerRow games p)) := by
  by_cases hw : p.prediction_type = "winner"
  · have hS : updateSpreadRow games (updateWinnerRow games p) = updateWinnerRow games p :=
      updateSpreadRow_not_type games _ (by rw [updateWinnerRow_type, hw]; decide)
    have hT : updateTotalRow games (updateWinnerRow games p) = updateWinnerRow games p :=
      updateTotalRow_not_type games _ (by rw [updateWinnerRow_type, hw]; decide)
    rw [hS, hT, updateWinnerRow_idem, hS, hT]
  · by_cases hs : p.prediction_type = "spread"
    · have hW1 : updateWinnerRow games p = p :=
        updateWinnerRow_not_type games p (by rw [hs]; decide)
      rw [hW1]
      have hT1 : updateTotalRow games (updateSpreadRow games p) = updateSpreadRow games p :=
        updateTotalRow_not_type games _ (by rw [updateSpreadRow_type, hs]; decide)
      have hW2 : updateWinnerRow games (updateSpreadRow games p) = updateSpreadRow games p :=
        updateWinnerRow_not_type games _ (by rw [updateSpreadRow_type, hs]; decide)
      rw [hT1, hW2, updateSpreadRow_idem, hT1]
    · by_cases ht : p.prediction_type = "total"
      · have hW1 : updateWinnerRow games p = p :=
          updateWinnerRow_not_type games p (by rw [ht]; decide)
        have hS1 : updateSpreadRow games p = p :=
          updateSpreadRow_not_type games p (by rw [ht]; decide)
        rw [hW1, hS1]
        have hW2 : updateWinnerRow games (updateTotalRow games p) = updateTotalRow games p :=
          updateWinnerRow_not_type games _ (by rw [updateTotalRow_type, ht]; decide)
        have hS2 : updateSpreadRow games (updateTotalRow games p) = updateTotalRow games p :=
          updateSpreadRow_not_type games _ (by rw [updateTotalRow_type, ht]; decide)
        rw [hW2, hS2, updateTotalRow_idem]
      · have hW1 : updateWinnerRow games p = p := updateWinnerRow_not_type games p hw
        have hS1 : updateSpreadRow games p = p := updateSpreadRow_not_type games p hs
        have hT1 : updateTotalRow games p = p := updateTotalRow_not_type games p ht
        rw [hW1, hS1, hT1, hW1, hS1, hT1]

/-- Claim C6: reconciliation is write-once and idempotent: each UPDATE
returns a row with populated `actual_value` unchanged (predicted value,
actual value and correctness flag included), and running the backfill
twice over the same completed games yields the same predictions table
as running it once. -/
theorem reconciliation_write_once_idempotent (games : List Game)
    (preds : List PredRow) (p : PredRow) (h : p.actual_value.isSome) :
    updateWinnerRow games p = p ∧ updateSpreadRow games p = p ∧
    updateTotalRow games p = p ∧
    update_prediction_accuracy games (update_prediction_accuracy games preds) =
      update_prediction_accuracy games preds := by
  refine ⟨updateWinnerRow_of_some games p h, updateSpreadRow_of_some games p h,
    updateTotalRow_of_some games p h, ?_⟩
  induction preds with
  | nil => rfl
  | cons q t ih =>
    unfold update_prediction_accuracy at ih ⊢
    simp only [List.map_cons]
    rw [reconciliation_idem_row]
    rw [ih]

/-- Concrete instance of C6: a spread row with `actual_value` already
set passes through every UPDATE unchanged, and the double backfill of a
one-row table equals the single backfill. -/
theorem reconciliation_write_once_idempotent_witness :
    updateWinnerRow [⟨1, "A", "B", some 100, some 90, 1, "completed"⟩]
      { game_id := 1, model_name := "Project Apex ML",
        prediction_type := "spread", predicted_value := 7, confidence := 1/2,
        actual_value := some 10, is_correct := some true } =
      { game_id := 1, model_name := "Project Apex ML",
        prediction_type := "spread", predicted_value := 7, confidence := 1/2,
        actual_value := some 10, is_correct := some true } ∧
    updateSpreadRow [⟨1, "A", "B", some 100, some 90, 1, "completed"⟩]
      { game_id := 1, model_name := "Project Apex ML",
        prediction_type := "spread", predicted_value := 7, confidence := 1/2,
        actual_value := some 10, is_correct := some true } =
      { game_id := 1, model_name := "Project Apex ML",
        prediction_type := "spread", predicted_value := 7, confidence := 1/2,
        actual_value := some 10, is_correct := some true } ∧
    updateTotalRow [⟨1, "A", "B", some 100, some 90, 1, "completed"⟩]
      { game_id := 1, model_name := "Project Apex ML",
        prediction_type := "spread", predicted_value := 7, confidence := 1/2,
        actual_value := some 10, is_correct := some true } =
      { game_id := 1, model_name := "Project Apex ML",
        prediction_type := "spread", predicted_value := 7, confidence := 1/2,
        actual_value := some 10, is_correct := some true } ∧
    update_prediction_accuracy [⟨1, "A", "B", some 100, some 90, 1, "completed"⟩]
      (update_prediction_accuracy [⟨1, "A", "B", some 100, some 90, 1, "completed"⟩]
        [{ game_id := 1, model_name := "Project Apex ML",
           prediction_type := "spread", predicted_value := 7, confidence := 1/2,
           actual_value := none, is_correct := none }]) =
      update_prediction_accuracy [⟨1, "A", "B", some 100, some 90, 1, "completed"⟩]
        [{ game_id := 1, model_name := "Project Apex ML",
           prediction_type := "spread", predicted_value := 7, confidence := 1/2,
           actual_value := none, is_correct := none }] :=
  reconciliation_write_once_idempotent
    [⟨1, "A", "B", some 100, some 90, 1, "completed"⟩]
    [{ game_id := 1, model_name := "Project Apex ML",
       prediction_type := "spread", predicted_value := 7, confidence := 1/2,
       actual_value := none, is_correct := none }]
    { game_id := 1, model_name := "Project Apex ML",
      prediction_type := "spread", predicted_value := 7, confidence := 1/2,
      actual_value := some 10, is_correct := some true } (by rfl)

/-- Key equality of the `predictions` table's unique constraint
`(game_id, model_name, prediction_type)`. -/
def keyMatch (game_id : Nat) (model_name prediction_type : String)
    (r : PredRow) : Bool :=
  r.game_id == game_id && r.model_name == model_name &&
    r.prediction_type == prediction_type

/-- One `INSERT ... ON CONFLICT (game_id, model_name, prediction_type)
DO UPDATE SET predicted_value, confidence` of `store_predictions`: on
conflict the existing row is updated in place (its `actual_value` and
`is_correct` untouched), otherwise a fresh row with null actual value
and correctness is inserted. -/
def upsertPrediction (tbl : List PredRow) (game_id : Nat)
    (model_name prediction_type : String) (v conf : ℚ) : List PredRow :=
  if tbl.any (keyMatch game_id model_name prediction_type) then
    tbl.map (fun r => if keyMatch game_id model_name prediction_type r then
      { r with predicted_value := v, confidence := conf } else r)
  else
    tbl ++ [({ game_id := game_id, model_name := model_name,
               prediction_type := prediction_type, predicted_value := v,
               confidence := conf, actual_value := none,
               is_correct := none } : PredRow)]

/-- `PredictionGenerator.store_predictions`: the three upserts (winner,
spread, total) of one committed transaction.  A bundle without the
`model_name` key raises a `KeyError` before the first statement runs;
the handler logs it and nothing is committed. -/
def store_predictions (tbl : List PredRow) (game_id : Nat)
    (predictions : Prediction) : List PredRow :=
  match predictions.model_name with
  | none => tbl
  | some name =>
    upsertPrediction
      (upsertPrediction
        (upsertPrediction tbl game_id name ("winner")
          predictions.home_win_probability predictions.confidence_outcome)
        game_id name ("spread") predictions.predicted_spread
        predictions.confidence_spread)
      game_id name ("total") predictions.predicted_total
      predictions.confidence_total

/-- Unfolding of the key predicate. -/
theorem keyMatch_iff (g : Nat) (m t : String) (r : PredRow) :
    keyMatch g m t r = true ↔
      r.game_id = g ∧ r.model_name = m ∧ r.prediction_type = t := by
  simp [keyMatch, and_assoc]

/-- A row cannot carry two different keys. -/
theorem keyMatch_unique_key (g1 g2 : Nat) (m1 m2 t1 t2 : String) (r : PredRow)
    (h1 : keyMatch g1 m1 t1 r = true) (h2 : keyMatch g2 m2 t2 r = true) :
    g1 = g2 ∧ m1 = m2 ∧ t1 = t2 := by
  obtain ⟨a1, b1, c1⟩ := (keyMatch_iff g1 m1 t1 r).mp h1
  obtain ⟨a2, b2, c2⟩ := (keyMatch_iff g2 m2 t2 r).mp h2
  exact ⟨a1 ▸ a2, b1 ▸ b2, c1 ▸ c2⟩

/-- The conflict update keeps the row's key fields, so filtering by the
upserted key commutes with the update map. -/
theorem filter_map_update (tbl : List PredRow) (g : Nat) (m t : String)
    (v c : ℚ) :
    (tbl.map (fun r => if keyMatch g m t r then
        { r with predicted_value := v, confidence := c } else r)).filter
      (keyMatch g m t) =
      (tbl.filter (keyMatch g m t)).map
        (fun r => { r with predicted_value := v, confidence := c }) := by
  induction tbl with
  | nil => rfl
  | cons r rest ih =>
    by_cases hr : keyMatch g m t r = true
    · simp only [List.map_cons]
      rw [if_pos hr]
      have hkeep : keyMatch g m t
          { r with predicted_value := v, confidence := c } = true := hr
      rw [List.filter_cons_of_pos hkeep, List.filter_cons_of_pos hr]
      simp only [List.map_cons]
      rw [ih]
    · simp only [List.map_cons]
      rw [if_neg hr]
      rw [List.filter_cons_of_neg hr, List.filter_cons_of_neg hr]
      exact ih

/-- Filtering by a different key is untouched by the update map. -/
theorem filter_map_update_of_ne (tbl : List PredRow) (g1 g2 : Nat)
    (m1 m2 t1 t2 : String) (v c : ℚ)
    (hne : ¬ (g2 = g1 ∧ m2 = m1 ∧ t2 = t1)) :
    (tbl.map (fun r => if keyMatch g2 m2 t2 r then
        { r with predicted_value := v, confidence := c } else r)).filter
      (keyMatch g1 m1 t1) = tbl.filter (keyMatch g1 m1 t1) := by
  induction tbl with
  | nil => rfl
  | cons r rest ih =>
    by_cases h2 : keyMatch g2 m2 t2 r = true
    · have h1 : ¬ keyMatch g1 m1 t1 r = true := by
        intro h1
        exact hne (keyMatch_unique_key g2 g1 m2 m1 t2 t1 r h2 h1)
      simp only [List.map_cons]
      rw [if_pos h2]
      have h1u : ¬ keyMatch g1 m1 t1
          { r with predicted_value := v, confidence := c } = true := h1
      rw [List.filter_cons_of_neg h1u, List.filter_cons_of_neg h1]
      exact ih
    · simp only [List.map_cons]
      rw [if_neg h2]
      by_cases h1 : keyMatch g1 m1 t1 r = true
      · rw [List.filter_cons_of_pos h1, List.filter_cons_of_pos h1, ih]
      · rw [List.filter_cons_of_neg h1, List.filter_cons_of_neg h1]
        exact ih

/-- The rows an upsert leaves under its own key: the conflicting rows
updated in place, or the single fresh row. -/
theorem upsert_filter_self (tbl : List PredRow) (g : Nat) (m t : String)
    (v c : ℚ) :
    (upsertPrediction tbl g m t v c).filter (keyMatch g m t) =
      if tbl.any (keyMatch g m t) then
        (tbl.filter (keyMatch g m t)).map
          (fun r => { r with predicted_value := v, confidence := c })
      else
        [{ game_id := g, model_name := m, prediction_type := t,
           predicted_value := v, confidence := c,
           actual_value := none, is_correct := none }] := by
  unfold upsertPrediction
  by_cases hany : tbl.any (keyMatch g m t) = true
  · rw [if_pos hany, if_pos hany]
    exact filter_map_update tbl g m t v c
  · rw [if_neg hany, if_neg hany]
    rw [List.filter_append]
    have hnil : tbl.filter (keyMatch g m t) = [] := by
      rw [List.filter_eq_nil_iff]
      intro a ha hqa
      exact hany (List.any_eq_true.mpr ⟨a, ha, hqa⟩)
    rw [hnil]
    simp [keyMatch]

/-- An upsert leaves every other key's rows untouched. -/
theorem upsert_filter_other (tbl : List PredRow) (g1 g2 : Nat)
    (m1 m2 t1 t2 : String) (v c : ℚ)
    (hne : ¬ (g2 = g1 ∧ m2 = m1 ∧ t2 = t1)) :
    (upsertPrediction tbl g2 m2 t2 v c).filter (keyMatch g1 m1 t1) =
      tbl.filter (keyMatch g1 m1 t1) := by
  unfold upsertPrediction
  by_cases hany : tbl.any (keyMatch g2 m2 t2) = true
  · rw [if_pos hany]
    exact filter_map_update_of_ne tbl g1 g2 m1 m2 t1 t2 v c hne
  · rw [if_neg hany]
    rw [List.filter_append]
    have hnew : List.filter (keyMatch g1 m1 t1)
        [({ game_id := g2, model_name := m2, prediction_type := t2,
            predicted_value := v, confidence := c, actual_value := none,
            is_correct := none } : PredRow)] = [] := by
      rw [List.filter_eq_nil_iff]
      intro a ha hq
      rw [List.mem_singleton] at ha
      subst ha
      simp [keyMatch] at hq
      tauto
    rw [hnew, List.append_nil]

/-- With a per-key-unique table, an upsert leaves exactly one row under
its key, holding the newly written value and confidence. -/
theorem upsert_latest (tbl : List PredRow) (g : Nat) (m t : String) (v c : ℚ)
    (huniq : (tbl.filter (keyMatch g m t)).length ≤ 1) :
    ((upsertPrediction tbl g m t v c).filter (keyMatch g m t)).map
      (fun r => (r.predicted_value, r.confidence)) = [(v, c)] := by
  rw [upsert_filter_self]
  by_cases hany : tbl.any (keyMatch g m t) = true
  · rw [if_pos hany]
    obtain ⟨x, hx, hqx⟩ := List.any_eq_true.mp hany
    have hmem : x ∈ tbl.filter (keyMatch g m t) := List.mem_filter.mpr ⟨hx, hqx⟩
    rcases hfl : tbl.filter (keyMatch g m t) with _ | ⟨r0, rest⟩
    · rw [hfl] at hmem
      cases hmem
    · rw [hfl] at huniq
      have hrest : rest = [] := by
        have hlen : rest.length = 0 := by
          simp only [List.length_cons] at huniq
          omega
        exact List.eq_nil_of_length_eq_zero hlen
      subst hrest
      rfl
  · rw [if_neg hany]
    rfl

/-- Per-key uniqueness of the predictions table is preserved by every
upsert. -/
theorem upsert_preserves_unique (tbl : List PredRow) (g2 : Nat)
    (m2 t2 : String) (v c : ℚ)
    (huniq : ∀ g m t, (tbl.filter (keyMatch g m t)).length ≤ 1) :
    ∀ g m t, ((upsertPrediction tbl g2 m2 t2 v c).filter
      (keyMatch g m t)).length ≤ 1 := by
  intro g m t
  by_cases hk : g2 = g ∧ m2 = m ∧ t2 = t
  · obtain ⟨rfl, rfl, rfl⟩ := hk
    rw [upsert_filter_self]
    by_cases hany : tbl.any (keyMatch g2 m2 t2) = true
    · rw [if_pos hany, List.length_map]
      exact huniq g2 m2 t2
    · rw [if_neg hany]
      simp
  · rw [upsert_filter_other tbl g g2 m m2 t t2 v c hk]
    exact huniq g m t

/-- Equation lemma: without the `model_name` key nothing commits. -/
theorem store_predictions_none (tbl : List PredRow) (gid : Nat)
    (p : Prediction) (h : p.model_name = none) :
    store_predictions tbl gid p = tbl := by
  unfold store_predictions
  rw [h]

/-- Equation lemma: with a model name the three upserts run in order. -/
theorem store_predictions_some (tbl : List PredRow) (gid : Nat)
    (p : Prediction) (n : String) (h : p.model_name = some n) :
    store_predictions tbl gid p =
      upsertPrediction
        (upsertPrediction
          (upsertPrediction tbl gid n ("winner")
            p.home_win_probability p.confidence_outcome)
          gid n ("spread") p.predicted_spread p.confidence_spread)
        gid n ("total") p.predicted_total p.confidence_total := by
  unfold store_predictions
  rw [h]

/-- Claim C9: per-key uniqueness of the predictions table is preserved
by every store-write, and issuing the store-write path twice for the
same game and model name leaves exactly one row per (game id, model
name, kind) key, holding the second bundle's value and confidence
(upsert, not append). -/
theorem store_predictions_upsert_latest (tbl : List PredRow) (gid : Nat)
    (p1 p2 : Prediction) (n : String)
    (hn1 : p1.model_name = some n) (hn2 : p2.model_name = some n)
    (huniq : ∀ g m t, (tbl.filter (keyMatch g m t)).length ≤ 1) :
    (∀ g m t, ((store_predictions tbl gid p1).filter
      (keyMatch g m t)).length ≤ 1) ∧
    (∀ g m t, ((store_predictions (store_predictions tbl gid p1) gid p2).filter
      (keyMatch g m t)).length ≤ 1) ∧
    ((store_predictions (store_predictions tbl gid p1) gid p2).filter
      (keyMatch gid n ("winner"))).map
        (fun r => (r.predicted_value, r.confidence)) =
      [(p2.home_win_probability, p2.confidence_outcome)] ∧
    ((store_predictions (store_predictions tbl gid p1) gid p2).filter
      (keyMatch gid n ("spread"))).map
        (fun r => (r.predicted_value, r.confidence)) =
      [(p2.predicted_spread, p2.confidence_spread)] ∧
    ((store_predictions (store_predictions tbl gid p1) gid p2).filter
      (keyMatch gid n ("total"))).map
        (fun r => (r.predicted_value, r.confidence)) =
      [(p2.predicted_total, p2.confidence_total)] := by
  have hu1 : ∀ g m t, ((store_predictions tbl gid p1).filter
      (keyMatch g m t)).length ≤ 1 := by
    rw [store_predictions_some tbl gid p1 n hn1]
    exact upsert_preserves_unique _ _ _ _ _ _
      (upsert_preserves_unique _ _ _ _ _ _
        (upsert_preserves_unique _ _ _ _ _ _ huniq))
  have hu1w : ∀ g m t, ((upsertPrediction (store_predictions tbl gid p1) gid n
      ("winner") p2.home_win_probability p2.confidence_outcome).filter
        (keyMatch g m t)).length ≤ 1 :=
    upsert_preserves_unique _ _ _ _ _ _ hu1
  have hu1ws : ∀ g m t, ((upsertPrediction (upsertPrediction
      (store_predictions tbl gid p1) gid n ("winner")
        p2.home_win_probability p2.confidence_outcome) gid n ("spread")
        p2.predicted_spread p2.confidence_spread).filter
          (keyMatch g m t)).length ≤ 1 :=
    upsert_preserves_unique _ _ _ _ _ _ hu1w
  have hne_tw : ¬ (gid = gid ∧ n = n ∧ ("total" : String) = ("winner")) := by
    intro hcon
    exact absurd hcon.2.2 (by decide)
  have hne_sw : ¬ (gid = gid ∧ n = n ∧ ("spread" : String) = ("winner")) := by
    intro hcon
    exact absurd hcon.2.2 (by decide)
  have hne_ts : ¬ (gid = gid ∧ n = n ∧ ("total" : String) = ("spread")) := by
    intro hcon
    exact absurd hcon.2.2 (by decide)
  refine ⟨hu1, ?_, ?_, ?_, ?_⟩
  · rw [store_predictions_some _ gid p2 n hn2]
    exact upsert_preserves_unique _ _ _ _ _ _ hu1ws
  · rw [store_predictions_some _ gid p2 n hn2]
    rw [upsert_filter_other _ gid gid n n ("winner") ("total") _ _ hne_tw]
    rw [upsert_filter_other _ gid gid n n ("winner") ("spread") _ _ hne_sw]
    exact upsert_latest _ _ _ _ _ _ (hu1 gid n ("winner"))
  · rw [store_predictions_some _ gid p2 n hn2]
    rw [upsert_filter_other _ gid gid n n ("spread") ("total") _ _ hne_ts]
    exact upsert_latest _ _ _ _ _ _ (hu1w gid n ("spread"))
  · rw [store_predictions_some _ gid p2 n hn2]
    exact upsert_latest _ _ _ _ _ _ (hu1ws gid n ("total"))

/-- Concrete instance of C9: two writes for game 1 under the same model
name, with different values, leave exactly one row per kind carrying
the second bundle's values. -/
theorem store_predictions_upsert_latest_witness :
    (∀ g m t, ((store_predictions []
      1 { home_win_probability := 3/5, away_win_probability := 2/5,
          predicted_spread := 2, predicted_total := 200,
          confidence_outcome := 1/5, confidence_spread := 1/10,
          confidence_total := 1/10,
          model_name := some ("Project Apex ML") }).filter
      (keyMatch g m t)).length ≤ 1) ∧
    (∀ g m t, ((store_predictions (store_predictions []
      1 { home_win_probability := 3/5, away_win_probability := 2/5,
          predicted_spread := 2, predicted_total := 200,
          confidence_outcome := 1/5, confidence_spread := 1/10,
          confidence_total := 1/10,
          model_name := some ("Project Apex ML") })
      1 { home_win_probability := 7/10, away_win_probability := 3/10,
          predicted_spread := 5, predicted_total := 210,
          confidence_outcome := 2/5, confidence_spread := 1/4,
          confidence_total := 4/5,
          model_name := some ("Project Apex ML") }).filter
      (keyMatch g m t)).length ≤ 1) ∧
    ((store_predictions (store_predictions []
      1 { home_win_probability := 3/5, away_win_probability := 2/5,
          predicted_spread := 2, predicted_total := 200,
          confidence_outcome := 1/5, confidence_spread := 1/10,
          confidence_total := 1/10,
          model_name := some ("Project Apex ML") })
      1 { home_win_probability := 7/10, away_win_probability := 3/10,
          predicted_spread := 5, predicted_total := 210,
          confidence_outcome := 2/5, confidence_spread := 1/4,
          confidence_total := 4/5,
          model_name := some ("Project Apex ML") }).filter
      (keyMatch 1 ("Project Apex ML") ("winner"))).map
        (fun r => (r.predicted_value, r.confidence)) = [(7/10, 2/5)] ∧
    ((store_predictions (store_predictions []
      1 { home_win_probability := 3/5, away_win_probability := 2/5,
          predicted_spread := 2, predicted_total := 200,
          confidence_outcome := 1/5, confidence_spread := 1/10,
          confidence_total := 1/10,
          model_name := some ("Project Apex ML") })
      1 { home_win_probability := 7/10, away_win_probability := 3/10,
          predicted_spread := 5, predicted_total := 210,
          confidence_outcome := 2/5, confidence_spread := 1/4,
          confidence_total := 4/5,
          model_name := some ("Project Apex ML") }).filter
      (keyMatch 1 ("Project Apex ML") ("spread"))).map
        (fun r => (r.predicted_value, r.confidence)) = [(5, 1/4)] ∧
    ((store_predictions (store_predictions []
      1 { home_win_probability := 3/5, away_win_probability := 2/5,
          predicted_spread := 2, predicted_total := 200,
          confidence_outcome := 1/5, confidence_spread := 1/10,
          confidence_total := 1/10,
          model_name := some ("Project Apex ML") })
      1 { home_win_probability := 7/10, away_win_probability := 3/10,
          predicted_spread := 5, predicted_total := 210,
          confidence_outcome := 2/5, confidence_spread := 1/4,
          confidence_total := 4/5,
          model_name := some ("Project Apex ML") }).filter
      (keyMatch 1 ("Project Apex ML") ("total"))).map
        (fun r => (r.predicted_value, r.confidence)) = [(210, 4/5)] :=
  store_predictions_upsert_latest [] 1
    { home_win_probability := 3/5, away_win_probability := 2/5,
      predicted_spread := 2, predicted_total := 200,
      confidence_outcome := 1/5, confidence_spread := 1/10,
      confidence_total := 1/10, model_name := some ("Project Apex ML") }
    { home_win_probability := 7/10, away_win_probability := 3/10,
      predicted_spread := 5, predicted_total := 210,
      confidence_outcome := 2/5, confidence_spread := 1/4,
      confidence_total := 4/5, model_name := some ("Project Apex ML") }
    ("Project Apex ML") rfl rfl
    (by
      intro g m t
      simp)

/-- Claim C10: `get_team_stats` and `get_head_to_head_stats` are total
at the public interface: for every outcome of the store read each call
returns a complete stats record — the computed statistics when the
read succeeds, and exactly the documented defaults when the read
raises. -/
theorem aggregators_total_with_defaults (std : List ℚ → ℚ)
    (read : Except Unit (List Game)) (team team1 : String) :
    (FeatureEngineer.get_team_stats_exc std read team =
        FeatureEngineer.get_default_stats ∨
      ∃ df, read = Except.ok df ∧
        FeatureEngineer.get_team_stats_exc std read team =
          FeatureEngineer.team_stats_of_df std team df) ∧
    (FeatureEngineer.get_head_to_head_stats_exc read team1 =
        { h2h_win_pct := 1/2, avg_total_points := 220, avg_margin := 0 } ∨
      ∃ df, read = Except.ok df ∧
        FeatureEngineer.get_head_to_head_stats_exc read team1 =
          FeatureEngineer.h2h_of_df team1 df) ∧
    (read = Except.error () →
      FeatureEngineer.get_team_stats_exc std read team =
          FeatureEngineer.get_default_stats ∧
        FeatureEngineer.get_head_to_head_stats_exc read team1 =
          { h2h_win_pct := 1/2, avg_total_points := 220, avg_margin := 0 }) := by
  rcases read with e | df
  · exact ⟨Or.inl rfl, Or.inl rfl, fun _ => ⟨rfl, rfl⟩⟩
  · refine ⟨Or.inr ⟨df, rfl, rfl⟩, Or.inr ⟨df, rfl, rfl⟩, fun hcon => ?_⟩
    exact Except.noConfusion hcon

/-- Concrete instance of C10: a raising store read yields the default
team profile and the default head-to-head statistics. -/
theorem aggregators_total_with_defaults_witness :
    FeatureEngineer.get_team_stats_exc (fun _ => 0) (Except.error ()) ("A") =
        FeatureEngineer.get_default_stats ∧
      FeatureEngineer.get_head_to_head_stats_exc (Except.error ()) ("A") =
        { h2h_win_pct := 1/2, avg_total_points := 220, avg_margin := 0 } :=
  (aggregators_total_with_defaults (fun _ => 0) (Except.error ())
    ("A") ("A")).2.2 rfl

/-- The win-percentage field computed on a non-empty query result: the
count of games the team won over the count of selected games. -/
theorem team_stats_of_df_win_percentage (std : List ℚ → ℚ) (team : String)
    (g0 : Game) (rest : List Game) :
    (FeatureEngineer.team_stats_of_df std team (g0 :: rest)).win_percentage =
      (((g0 :: rest).filter
        (fun g => decide (teamScore team g > oppScore team g))).length : ℚ) /
        ((g0 :: rest).length : ℚ) := by
  have h1 : (FeatureEngineer.team_stats_of_df std team (g0 :: rest)).win_percentage =
      (((((g0 :: rest).map (teamScore team)).zip
          ((g0 :: rest).map (oppScore team))).filter
        (fun p => decide (p.1 > p.2))).length : ℚ) /
        (((g0 :: rest).map (teamScore team)).length : ℚ) := rfl
  rw [h1, List.zip_map', List.length_map]
  rw [← List.countP_eq_length_filter, List.countP_map,
    List.countP_eq_length_filter]
  rfl

/-- Claim C8 (amended): for a team with at least one qualifying game
and a positive window size, the query selects the most recent `n`
qualifying games in date-descending order, and `win_percentage` is the
count of selected games the team won divided by the number of selected
games — `min n (number of qualifying games)`, not always `n` itself. -/
theorem get_team_stats_win_percentage (std : List ℚ → ℚ) (store : List Game)
    (team : String) (n : Nat) (hn : 0 < n)
    (hq : store.filter (teamQualifies team) ≠ []) :
    (teamQuery store team n).length =
      min n (store.filter (teamQualifies team)).length ∧
    List.Sorted dateDesc (teamQuery store team n) ∧
    (∀ g ∈ teamQuery store team n, teamQualifies team g = true) ∧
    (∀ g ∈ teamQuery store team n, ∀ g2 ∈ store.filter (teamQualifies team),
      g2 ∉ teamQuery store team n → dateDesc g g2) ∧
    (FeatureEngineer.get_team_stats std store team n).win_percentage =
      (((teamQuery store team n).filter
        (fun g => decide (teamScore team g > oppScore team g))).length : ℚ) /
        ((teamQuery store team n).length : ℚ) := by
  have hperm : List.Perm (sortByDateDesc (store.filter (teamQualifies team)))
      (store.filter (teamQualifies team)) :=
    List.perm_insertionSort dateDesc _
  have hsort : List.Sorted dateDesc
      (sortByDateDesc (store.filter (teamQualifies team))) :=
    List.sorted_insertionSort dateDesc _
  have hlen : (teamQuery store team n).length =
      min n (store.filter (teamQualifies team)).length := by
    unfold teamQuery
    rw [List.length_take]
    rw [show (sortByDateDesc (store.filter (teamQualifies team))).length =
      (store.filter (teamQualifies team)).length from hperm.length_eq]
  have hsub : List.Sublist (teamQuery store team n)
      (sortByDateDesc (store.filter (teamQualifies team))) :=
    List.take_sublist n _
  refine ⟨hlen, hsort.sublist hsub, ?_, ?_, ?_⟩
  · intro g hg
    exact List.of_mem_filter (hperm.mem_iff.mp (hsub.subset hg))
  · intro g hg g2 hg2 hg2out
    have hg2s : g2 ∈ sortByDateDesc (store.filter (teamQualifies team)) :=
      hperm.mem_iff.mpr hg2
    have hsplit := List.take_append_drop n
      (sortByDateDesc (store.filter (teamQualifies team)))
    have hsorted2 : List.Pairwise dateDesc
        ((sortByDateDesc (store.filter (teamQualifies team))).take n ++
          (sortByDateDesc (store.filter (teamQualifies team))).drop n) := by
      rw [hsplit]
      exact hsort
    have hcross := (List.pairwise_append.mp hsorted2).2.2
    have hg2d : g2 ∈ (sortByDateDesc (store.filter (teamQualifies team))).drop n := by
      rcases List.mem_append.mp (by rw [hsplit]; exact hg2s :
          g2 ∈ (sortByDateDesc (store.filter (teamQualifies team))).take n ++
            (sortByDateDesc (store.filter (teamQualifies team))).drop n) with h | h
      · exact absurd h hg2out
      · exact h
    exact hcross g hg g2 hg2d
  · have hpos : 0 < (teamQuery store team n).length := by
      rw [hlen]
      rcases hfe : store.filter (teamQualifies team) with _ | ⟨a, b⟩
      · exact absurd hfe hq
      · simp [Nat.lt_iff_add_one_le]
        omega
    rcases hsel : teamQuery store team n with _ | ⟨g0, rest⟩
    · rw [hsel] at hpos
      exact absurd hpos (by simp)
    · have hgt : FeatureEngineer.get_team_stats std store team n =
          FeatureEngineer.team_stats_of_df std team (teamQuery store team n) := rfl
      rw [hgt, hsel]
      exact team_stats_of_df_win_percentage std team g0 rest

/-- Counterexample to C8 as stated: team A has exactly one qualifying
game (a 100–90 win) with window size 10.  The code returns
`win_percentage = 1` (wins divided by the one selected game), while
the claim's value — the count of selected winning games divided by the
window size N = 10 — is 1/10. -/
theorem get_team_stats_win_percentage_counterexample :
    (([⟨1, "A", "B", some 100, some 90, 3, "completed"⟩] : List Game).filter
      (teamQualifies ("A"))).length = 1 ∧
    ((teamQuery [⟨1, "A", "B", some 100, some 90, 3, "completed"⟩] ("A") 10).filter
      (fun g => decide (teamScore ("A") g > oppScore ("A") g))).length = 1 ∧
    (FeatureEngineer.get_team_stats (fun _ => 0)
      [⟨1, "A", "B", some 100, some 90, 3, "completed"⟩] ("A") 10).win_percentage = 1 ∧
    (FeatureEngineer.get_team_stats (fun _ => 0)
      [⟨1, "A", "B", some 100, some 90, 3, "completed"⟩] ("A") 10).win_percentage ≠
      (((teamQuery [⟨1, "A", "B", some 100, some 90, 3, "completed"⟩] ("A") 10).filter
        (fun g => decide (teamScore ("A") g > oppScore ("A") g))).length : ℚ) / 10 := by
  have hwp : (FeatureEngineer.get_team_stats (fun _ => 0)
      [⟨1, "A", "B", some 100, some 90, 3, "completed"⟩] ("A") 10).win_percentage =
      ((1:ℕ):ℚ) / ((1:ℕ):ℚ) := rfl
  have hcount : ((teamQuery [⟨1, "A", "B", some 100, some 90, 3, "completed"⟩]
      ("A") 10).filter
      (fun g => decide (teamScore ("A") g > oppScore ("A") g))).length = 1 := rfl
  refine ⟨rfl, hcount, ?_, ?_⟩
  · rw [hwp]
    norm_num
  · rw [hwp, hcount]
    norm_num

/-- Concrete instance of the amended C8: the one-game store, window 10;
one game is selected, sorted, qualifying, and the win percentage is
1/1 = 1. -/
theorem get_team_stats_win_percentage_witness :
    (teamQuery [⟨1, "A", "B", some 100, some 90, 3, "completed"⟩] ("A") 10).length =
      min 10 (([⟨1, "A", "B", some 100, some 90, 3, "completed"⟩] : List Game).filter
        (teamQualifies ("A"))).length ∧
    List.Sorted dateDesc
      (teamQuery [⟨1, "A", "B", some 100, some 90, 3, "completed"⟩] ("A") 10) ∧
    (∀ g ∈ teamQuery [⟨1, "A", "B", some 100, some 90, 3, "completed"⟩] ("A") 10,
      teamQualifies ("A") g = true) ∧
    (∀ g ∈ teamQuery [⟨1, "A", "B", some 100, some 90, 3, "completed"⟩] ("A") 10,
      ∀ g2 ∈ ([⟨1, "A", "B", some 100, some 90, 3, "completed"⟩] : List Game).filter
        (teamQualifies ("A")),
      g2 ∉ teamQuery [⟨1, "A", "B", some 100, some 90, 3, "completed"⟩] ("A") 10 →
        dateDesc g g2) ∧
    (FeatureEngineer.get_team_stats (fun _ => 0)
      [⟨1, "A", "B", some 100, some 90, 3, "completed"⟩] ("A") 10).win_percentage =
      (((teamQuery [⟨1, "A", "B", some 100, some 90, 3, "completed"⟩] ("A") 10).filter
        (fun g => decide (teamScore ("A") g > oppScore ("A") g))).length : ℚ) /
        ((teamQuery [⟨1, "A", "B", some 100, some 90, 3, "completed"⟩] ("A") 10).length : ℚ) :=
  get_team_stats_win_percentage (fun _ => 0)
    [⟨1, "A", "B", some 100, some 90, 3, "completed"⟩] ("A") 10
    (by decide) (by simp [teamQualifies])
